import Mathlib

/-!
Verification of the client-side chat session logic of a single-room
real-time collaboration tool.  The component under study is the React
`App` component (`src/frontend/src/App.jsx` and its near-duplicate
revision): its message-timeline state, the socket event handlers
(`initial_messages`, `new_message`, `chat_cleared`) and the user-intent
handlers (`handleSetUsername`, `sendMessage`, `confirmClearChat`,
`initiateClearChat`, `cancelClearChat`).

Modelling conventions:
  - A server message payload is a JavaScript object whose fields may be
    absent; absent fields are `none`.
  - `new Date(m.timestamp)` is modelled by the `timestamp : Option Int`
    field itself: `some n` stands for a timestamp string that parses to
    epoch value `n`, `none` for a missing or unparseable timestamp
    (JavaScript `Invalid Date`, whose numeric value is `NaN`).
  - `Array.prototype.sort(cmp)` is stable (ECMAScript 2019 and later)
    and, per the `SortCompare` clause of the ECMAScript standard, a
    comparator result of `NaN` is treated as `+0`.  The sort is modelled
    as a stable insertion sort, which agrees with every stable
    implementation whenever the comparator is consistent; the concrete
    facts proved about inconsistent (`NaN`-producing) comparators use
    only two-element lists, on which a single comparison returning `0`
    forces every stable implementation to keep the received order.
  - JavaScript string truthiness (`if (s.trim())`) is the test
    `jsTrim s != ""`; a non-null `socketRef.current` is the flag
    `socketConnected`.
  - `alert(msg)` is recorded in an `alerted : Option String` result
    field; `socket.emit` payloads are recorded in `emitted` fields.
-/

namespace Chat

/-- A message object as it lives in the `messages` React state: fields of a
server payload, any of which may be missing; `timestamp` holds the parsed
epoch value of `new Date(timestamp)`, `none` when missing or unparseable. -/
structure Message where
  user : Option String
  text : Option String
  timestamp : Option Int
deriving DecidableEq, Repr

/-- The payload `{ user: username.trim(), text: messageInput.trim() }`
built by `sendMessage` (the server adds the timestamp). -/
structure OutgoingMessage where
  user : String
  text : String
deriving DecidableEq, Repr

/-- The React state of the `App` component: the `useState` hooks plus the
presence of `socketRef.current`. -/
structure AppState where
  messages : List Message
  messageInput : String
  username : String
  tempUsername : String
  usernameSet : Bool
  showClearConfirm : Bool
  showEmojiPicker : Bool
  socketConnected : Bool
deriving DecidableEq, Repr

/-- Whitespace characters stripped by JavaScript `String.prototype.trim`
(restricted to the ASCII whitespace relevant here). -/
def isJsSpace (c : Char) : Bool :=
  c == ' ' || c == '\t' || c == '\n' || c == '\r' || c == '\x0b' || c == '\x0c'

/-- Model of JavaScript `String.prototype.trim`: strip leading and trailing
whitespace. -/
def jsTrim (s : String) : String :=
  ⟨((s.data.dropWhile isJsSpace).reverse.dropWhile isJsSpace).reverse⟩

/-- The raw comparator value `new Date(a.timestamp) - new Date(b.timestamp)`
of the `initial_messages` handler; `none` is `NaN` (at least one side is an
`Invalid Date`). -/
def dateDiff (a b : Message) : Option Int :=
  match a.timestamp, b.timestamp with
  | some x, some y => some (x - y)
  | _, _ => none

/-- The effective comparator used by the sort: per ECMAScript `SortCompare`,
a `NaN` comparator result is treated as `+0`. -/
def sortCompare (a b : Message) : Int :=
  (dateDiff a b).getD 0

/-- One step of the stable sort: insert `x` into an already-sorted list,
after every element that strictly precedes it and before the first element
it does not come after (ties keep the earlier-received element first). -/
def sortInsert (x : Message) : List Message → List Message
  | [] => [x]
  | y :: ys => if sortCompare x y ≤ 0 then x :: y :: ys else y :: sortInsert x ys

/-- Model of `data.messages.sort((a, b) => new Date(a.timestamp) -
new Date(b.timestamp))`: a stable sort under `sortCompare`. -/
def jsSort : List Message → List Message
  | [] => []
  | x :: xs => sortInsert x (jsSort xs)

/-- The `initial_messages` handler: sorts the received history by timestamp
and replaces the `messages` state with it (`Timeline.hydrate`). -/
def initialMessagesHandler (s : AppState) (msgs : List Message) : AppState :=
  { s with messages := jsSort msgs }

/-- The `new_message` handler: `setMessages(prev => [...prev, message])`,
appending the received payload unchanged (`Timeline.append`). -/
def newMessageHandler (s : AppState) (message : Message) : AppState :=
  { s with messages := s.messages ++ [message] }

/-- Result of a handler that may raise an `alert`. -/
structure AlertedResult where
  state : AppState
  alerted : Option String
deriving DecidableEq, Repr

/-- The `chat_cleared` handler: `setMessages([])` and the notice
`alert('Chat history has been cleared by another user.')`. -/
def chatClearedHandler (s : AppState) : AlertedResult :=
  { state := { s with messages := [] },
    alerted := some "Chat history has been cleared by another user." }

/-- The `handleSetUsername` handler: if the trimmed draft is non-empty,
store it as the username and mark the username as set; otherwise alert
that the username cannot be empty. -/
def handleSetUsername (s : AppState) : AlertedResult :=
  if jsTrim s.tempUsername != "" then
    { state := { s with username := jsTrim s.tempUsername, usernameSet := true },
      alerted := none }
  else
    { state := s, alerted := some "Username cannot be empty." }

/-- Result of `sendMessage`: the new state, the emitted `message` wire
payload if any, and the alert if any. -/
structure SendResult where
  state : AppState
  emitted : Option OutgoingMessage
  alerted : Option String
deriving DecidableEq, Repr

/-- The `sendMessage` handler: if the trimmed input is non-empty, the
socket exists and the trimmed username is non-empty, emit the message
payload, clear the input and hide the emoji picker; otherwise, if the
trimmed input is empty, alert that the message cannot be empty; otherwise
do nothing. -/
def sendMessage (s : AppState) : SendResult :=
  if jsTrim s.messageInput != "" && s.socketConnected && (jsTrim s.username != "") then
    { state := { s with messageInput := "", showEmojiPicker := false },
      emitted := some { user := jsTrim s.username, text := jsTrim s.messageInput },
      alerted := none }
  else if jsTrim s.messageInput == "" then
    { state := s, emitted := none, alerted := some "Message cannot be empty." }
  else
    { state := s, emitted := none, alerted := none }

/-- Result of `confirmClearChat`: the new state and whether a `clear_chat`
wire event was emitted. -/
structure ConfirmClearResult where
  state : AppState
  emittedClear : Bool
deriving DecidableEq, Repr

/-- The `confirmClearChat` handler: emit `clear_chat` when the socket
exists, and close the confirmation modal. -/
def confirmClearChat (s : AppState) : ConfirmClearResult :=
  { state := { s with showClearConfirm := false },
    emittedClear := s.socketConnected }

/-- The `initiateClearChat` handler: open the confirmation modal. -/
def initiateClearChat (s : AppState) : AppState :=
  { s with showClearConfirm := true }

/-- The `cancelClearChat` handler: close the confirmation modal. -/
def cancelClearChat (s : AppState) : AppState :=
  { s with showClearConfirm := false }

/-- The numeric timestamp of a message under the convention that an
invalid date reads as `0`; only used on messages known to be valid. -/
def tsVal (m : Message) : Int :=
  m.timestamp.getD 0

/-- A message whose timestamp parsed successfully. -/
def validTs (m : Message) : Bool :=
  m.timestamp.isSome

/-! Sorting lemmas: the stable sort modelling `Array.prototype.sort` with
the timestamp comparator is a permutation, is sorted on valid timestamps,
and preserves the received order of equal-timestamp messages. -/

theorem sortInsert_perm (x : Message) (l : List Message) :
    (sortInsert x l).Perm (x :: l) := by
  induction l with
  | nil => rfl
  | cons y ys ih =>
    by_cases h : sortCompare x y ≤ 0
    · simp [sortInsert, h]
    · simp only [sortInsert, if_neg h]
      exact (ih.cons y).trans (List.Perm.swap x y ys)

theorem jsSort_perm (l : List Message) : (jsSort l).Perm l := by
  induction l with
  | nil => rfl
  | cons x xs ih => exact (sortInsert_perm x (jsSort xs)).trans (ih.cons x)

theorem mem_jsSort {m : Message} {l : List Message} : m ∈ jsSort l ↔ m ∈ l :=
  (jsSort_perm l).mem_iff

theorem sortCompare_le_iff {a b : Message} (ha : validTs a = true) (hb : validTs b = true) :
    sortCompare a b ≤ 0 ↔ tsVal a ≤ tsVal b := by
  unfold validTs at ha hb
  cases hx : a.timestamp with
  | none => simp [hx] at ha
  | some x =>
    cases hy : b.timestamp with
    | none => simp [hy] at hb
    | some y =>
      simp [sortCompare, dateDiff, tsVal, hx, hy, sub_nonpos]

theorem pairwise_sortInsert {x : Message} {l : List Message}
    (hx : validTs x = true) (hl : ∀ m ∈ l, validTs m = true)
    (hs : l.Pairwise (fun a b => tsVal a ≤ tsVal b)) :
    (sortInsert x l).Pairwise (fun a b => tsVal a ≤ tsVal b) := by
  induction l with
  | nil => simp [sortInsert]
  | cons y ys ih =>
    have hy : validTs y = true := hl y (List.mem_cons_self y ys)
    have hys : ∀ m ∈ ys, validTs m = true := fun m hm => hl m (List.mem_cons_of_mem y hm)
    rw [List.pairwise_cons] at hs
    by_cases h : sortCompare x y ≤ 0
    · have hxy : tsVal x ≤ tsVal y := (sortCompare_le_iff hx hy).mp h
      simp only [sortInsert, if_pos h]
      refine List.Pairwise.cons ?_ (List.Pairwise.cons hs.1 hs.2)
      intro m hm
      rcases List.mem_cons.mp hm with rfl | hm
      · exact hxy
      · exact le_trans hxy (hs.1 m hm)
    · have hyx : tsVal y ≤ tsVal x := by
        have := (sortCompare_le_iff hx hy).not.mp h
        omega
      simp only [sortInsert, if_neg h]
      refine List.Pairwise.cons ?_ (ih hys hs.2)
      intro m hm
      have hm' : m = x ∨ m ∈ ys := by
        have := (sortInsert_perm x ys).mem_iff.mp hm
        simpa using this
      rcases hm' with rfl | hm'
      · exact hyx
      · exact hs.1 m hm'

theorem pairwise_jsSort {l : List Message} (hl : ∀ m ∈ l, validTs m = true) :
    (jsSort l).Pairwise (fun a b => tsVal a ≤ tsVal b) := by
  induction l with
  | nil => simp [jsSort]
  | cons x xs ih =>
    have hx : validTs x = true := hl x (List.mem_cons_self x xs)
    have hxs : ∀ m ∈ xs, validTs m = true := fun m hm => hl m (List.mem_cons_of_mem x hm)
    exact pairwise_sortInsert hx (fun m hm => hxs m (mem_jsSort.mp hm)) (ih hxs)

theorem filter_sortInsert_eq {t : Int} {x : Message} (l : List Message)
    (hx : x.timestamp = some t) :
    (sortInsert x l).filter (fun m => m.timestamp == some t)
      = x :: l.filter (fun m => m.timestamp == some t) := by
  induction l with
  | nil => simp [sortInsert, hx]
  | cons y ys ih =>
    by_cases h : sortCompare x y ≤ 0
    · simp [sortInsert, if_pos h, hx]
    · have hy : (y.timestamp == some t) = false := by
        rw [beq_eq_false_iff_ne]
        intro hyt
        apply h
        simp [sortCompare, dateDiff, hx, hyt]
      simp only [sortInsert, if_neg h, List.filter_cons, hy]
      simpa [hy] using ih

theorem filter_sortInsert_ne {t : Int} {x : Message} (l : List Message)
    (hx : x.timestamp ≠ some t) :
    (sortInsert x l).filter (fun m => m.timestamp == some t)
      = l.filter (fun m => m.timestamp == some t) := by
  have hxf : (x.timestamp == some t) = false := beq_eq_false_iff_ne.mpr hx
  induction l with
  | nil => simp [sortInsert, hxf]
  | cons y ys ih =>
    by_cases h : sortCompare x y ≤ 0
    · simp [sortInsert, if_pos h, List.filter_cons, hxf]
    · simp only [sortInsert, if_neg h, List.filter_cons]
      rw [ih]

theorem filter_jsSort (t : Int) (l : List Message) :
    (jsSort l).filter (fun m => m.timestamp == some t)
      = l.filter (fun m => m.timestamp == some t) := by
  induction l with
  | nil => rfl
  | cons x xs ih =>
    by_cases hx : x.timestamp = some t
    · rw [jsSort, filter_sortInsert_eq (jsSort xs) hx, ih, List.filter_cons,
        if_pos (by simp [hx])]
    · rw [jsSort, filter_sortInsert_ne (jsSort xs) hx, ih, List.filter_cons,
        if_neg (by simp [hx])]

/-! Concrete values used by witnesses and counterexamples. -/

/-- A message with timestamp 100. -/
def mAlice : Message := ⟨some "Alice", some "hi", some 100⟩

/-- A message with timestamp 50. -/
def mBob : Message := ⟨some "Bob", some "yo", some 50⟩

/-- A second message with timestamp 100, received after `mAlice`. -/
def mCara : Message := ⟨some "Cara", some "ok", some 100⟩

/-- A message whose timestamp is missing or unparseable. -/
def mNoTs : Message := ⟨some "Mallory", some "late", none⟩

/-- A `new_message` payload lacking the required `text` body field. -/
def mNoBody : Message := ⟨some "Eve", none, some 7⟩

/-- The initial React state: everything empty, no socket. -/
def s0 : AppState := ⟨[], "", "", "", false, false, false, false⟩

/-- An anonymous-state snapshot: no username confirmed, a non-empty draft
message in the compose buffer. -/
def sAnon : AppState := ⟨[], "hi", "", "", false, false, false, false⟩

/-- A state with the clear-confirmation modal open but no socket. -/
def sPendingClear : AppState := ⟨[], "", "Alice", "", true, true, false, false⟩

/-- A state with a live socket and the clear-confirmation modal closed. -/
def sNoPendingClear : AppState := ⟨[], "", "Alice", "", true, false, false, true⟩

/-- A state with the draft name " Alice " typed but not yet confirmed. -/
def sDraftAlice : AppState := ⟨[], "", "", " Alice ", false, false, false, false⟩

/-- A state with a whitespace-only draft name. -/
def sDraftBlank : AppState := ⟨[], "", "", "   ", false, false, false, false⟩

/-- An active-state snapshot: confirmed identity "Alice", a live socket,
text " hello " in the compose buffer, emoji picker open. -/
def sActive : AppState := ⟨[], " hello ", "Alice", "", true, false, true, true⟩

/-- An active-state snapshot whose compose buffer is whitespace only. -/
def sActiveEmpty : AppState := ⟨[], "   ", "Alice", "", true, false, true, true⟩

/-- C1: for every message sequence passed to the `initial_messages` handler
(`hydrate`) in which every timestamp parses, the resulting Timeline is
sorted ascending by timestamp, and the sort is stable: messages with equal
timestamps keep the order in which the server sent them. -/
theorem C1_hydrate_sorted_stable (s : AppState) (msgs : List Message)
    (h : msgs.all validTs = true) :
    (initialMessagesHandler s msgs).messages.Pairwise (fun a b => tsVal a ≤ tsVal b)
    ∧ ∀ t : Int,
        (initialMessagesHandler s msgs).messages.filter (fun m => m.timestamp == some t)
          = msgs.filter (fun m => m.timestamp == some t) := by
  have h' : ∀ m ∈ msgs, validTs m = true := by simpa [List.all_eq_true] using h
  exact ⟨pairwise_jsSort h', fun t => filter_jsSort t msgs⟩

/-- Witness for C1 at the concrete history `[mAlice, mBob, mCara]`
(timestamps 100, 50, 100): all timestamps parse, the hydrated Timeline is
sorted, and the two timestamp-100 messages keep their server order. -/
theorem C1_hydrate_sorted_stable_witness :
    ([mAlice, mBob, mCara].all validTs = true)
    ∧ ((initialMessagesHandler s0 [mAlice, mBob, mCara]).messages.Pairwise
          (fun a b => tsVal a ≤ tsVal b)
       ∧ ∀ t : Int,
          (initialMessagesHandler s0 [mAlice, mBob, mCara]).messages.filter
              (fun m => m.timestamp == some t)
            = [mAlice, mBob, mCara].filter (fun m => m.timestamp == some t)) :=
  ⟨by decide, C1_hydrate_sorted_stable s0 [mAlice, mBob, mCara] (by decide)⟩

/-- C2 counterexample: hydrating `[mAlice, mNoTs, mBob]` (timestamps 100,
unparseable, 50) leaves the list unchanged: the malformed-timestamp message
is NOT sorted to the end (the last element is `mBob`), and the valid
messages 100 and 50 are left out of ascending order, so a bad timestamp
does corrupt the rest of the ordering. -/
theorem C2_hydrate_malformed_counterexample :
    (initialMessagesHandler s0 [mAlice, mNoTs, mBob]).messages = [mAlice, mNoTs, mBob]
    ∧ (initialMessagesHandler s0 [mAlice, mNoTs, mBob]).messages.getLast? ≠ some mNoTs := by
  decide

/-- C2 (amended): hydration never fails on malformed timestamps — the
handler always returns a permutation of the received history, dropping
nothing; but a `NaN` comparator result is treated as `0`, so a
malformed-timestamp message compares as a tie with every neighbour and is
left where the stable sort puts it rather than being moved to the end, and
ascending order among the valid messages is not re-established across it. -/
theorem C2_hydrate_malformed_total (s : AppState) (msgs : List Message) :
    (initialMessagesHandler s msgs).messages.Perm msgs := by
  simpa [initialMessagesHandler] using jsSort_perm msgs

/-- C3 counterexample: a `new_message` payload lacking the required body
field is not dropped — the handler appends it to the Timeline, mutating
it; no `MalformedPayload` condition exists in the code. -/
theorem C3_malformed_payload_counterexample :
    (newMessageHandler s0 mNoBody).messages ≠ s0.messages
    ∧ (newMessageHandler s0 mNoBody).messages = [mNoBody] := by
  decide

/-- C3 (amended): the `new_message` handler performs no payload
validation: every received payload, including one lacking the body field,
is appended unchanged to the Timeline; nothing is dropped or logged and no
`MalformedPayload` condition is raised. -/
theorem C3_new_message_no_validation (s : AppState) (m : Message) :
    (newMessageHandler s m).messages = s.messages ++ [m] :=
  rfl

/-- C4 counterexample: in the anonymous state `sAnon` (empty username,
non-empty compose buffer), `sendMessage` emits nothing — but it also
surfaces no error whatsoever (no alert) and leaves the state untouched:
there is no `NoIdentity` failure, just a silent no-op. -/
theorem C4_no_identity_counterexample :
    (sendMessage sAnon).emitted = none
    ∧ (sendMessage sAnon).alerted = none
    ∧ (sendMessage sAnon).state = sAnon := by
  decide

/-- C4 (amended): `sendMessage` with an unconfirmed identity (trimmed
username empty) causes no protocol emission and no state change, but it
surfaces no `NoIdentity` error: it is a silent no-op, except that an empty
trimmed compose buffer still triggers the empty-message alert. -/
theorem C4_send_anonymous_silent (s : AppState) (h : jsTrim s.username = "") :
    (sendMessage s).emitted = none
    ∧ (sendMessage s).state = s
    ∧ (sendMessage s).alerted
        = (if jsTrim s.messageInput == "" then some "Message cannot be empty." else none) := by
  have hu : (jsTrim s.username != "") = false := by simp [h]
  unfold sendMessage
  rw [hu]
  simp only [Bool.and_false]
  by_cases hm : (jsTrim s.messageInput == "") = true
  · simp [hm]
  · simp [hm]

/-- Witness for C4 (amended) at the anonymous state `sAnon`. -/
theorem C4_send_anonymous_silent_witness :
    jsTrim (AppState.username sAnon) = ""
    ∧ ((sendMessage sAnon).emitted = none
       ∧ (sendMessage sAnon).state = sAnon
       ∧ (sendMessage sAnon).alerted
           = (if jsTrim (AppState.messageInput sAnon) == "" then
                some "Message cannot be empty." else none)) :=
  ⟨by decide, C4_send_anonymous_silent sAnon (by decide)⟩

/-- C5 counterexample: `confirmClearChat` does not consult the
`showClearConfirm` (pendingClearConfirmation) flag: with the flag set but
no socket it emits nothing, and with the flag clear but a live socket it
emits `clear_chat` — both directions of the claimed "if and only if" fail. -/
theorem C5_confirm_clear_counterexample :
    (sPendingClear.showClearConfirm = true
      ∧ (confirmClearChat sPendingClear).emittedClear = false)
    ∧ (sNoPendingClear.showClearConfirm = false
      ∧ (confirmClearChat sNoPendingClear).emittedClear = true) := by
  decide

/-- C5 (amended): `confirmClearChat` emits the `clear_chat` wire event
exactly when the socket connection exists — the pendingClearConfirmation
flag is not consulted — and always resets the flag; the Timeline is never
cleared by `confirmClearChat` itself, and it becomes empty upon the
server's `chat_cleared` confirmation, which also surfaces a user-visible
notice. -/
theorem C5_confirm_clear_behaviour (s : AppState) :
    (confirmClearChat s).emittedClear = s.socketConnected
    ∧ (confirmClearChat s).state.showClearConfirm = false
    ∧ (confirmClearChat s).state.messages = s.messages
    ∧ (chatClearedHandler s).state.messages = []
    ∧ (chatClearedHandler s).alerted
        = some "Chat history has been cleared by another user." := by
  refine ⟨rfl, rfl, rfl, rfl, rfl⟩

/-- C6: for every Timeline state and every message, the `new_message`
handler (`Timeline.append`) places the message at the last position and
leaves every previously present entry, and their relative order,
unchanged. -/
theorem C6_append_is_last_and_preserves (s : AppState) (m : Message) :
    (newMessageHandler s m).messages.getLast? = some m
    ∧ (newMessageHandler s m).messages.take s.messages.length = s.messages
    ∧ (newMessageHandler s m).messages.length = s.messages.length + 1 := by
  refine ⟨?_, ?_, ?_⟩ <;> simp [newMessageHandler]

/-- C7: `handleSetUsername` (confirmIdentity) rejects with the
empty-username alert exactly when the trimmed draft is empty, leaving the
state unchanged; otherwise it stores the trimmed draft as the username and
marks the identity as set (anonymous to active), with no alert. -/
theorem C7_confirm_identity (s : AppState) :
    (jsTrim s.tempUsername = "" →
        (handleSetUsername s).alerted = some "Username cannot be empty."
        ∧ (handleSetUsername s).state = s)
    ∧ (jsTrim s.tempUsername ≠ "" →
        (handleSetUsername s).alerted = none
        ∧ (handleSetUsername s).state.username = jsTrim s.tempUsername
        ∧ (handleSetUsername s).state.usernameSet = true) := by
  unfold handleSetUsername
  constructor
  · intro h
    simp [h]
  · intro h
    simp [h]

/-- Witness for C7 at the concrete drafts " Alice " (succeeds and stores
"Alice") and "   " (fails with the empty-username alert). -/
theorem C7_confirm_identity_witness :
    (jsTrim (AppState.tempUsername sDraftAlice) ≠ ""
      ∧ (handleSetUsername sDraftAlice).alerted = none
      ∧ (handleSetUsername sDraftAlice).state.username = "Alice"
      ∧ (handleSetUsername sDraftAlice).state.usernameSet = true)
    ∧ (jsTrim (AppState.tempUsername sDraftBlank) = ""
      ∧ (handleSetUsername sDraftBlank).alerted = some "Username cannot be empty.") := by
  have h1 := (C7_confirm_identity sDraftAlice).2 (by decide)
  have h2 := (C7_confirm_identity sDraftBlank).1 (by decide)
  refine ⟨⟨by decide, h1.1, ?_, h1.2.2⟩, by decide, h2.1⟩
  rw [h1.2.1]
  decide

/-- C8: in the active state (trimmed identity stored, socket live),
`sendMessage` alerts that the message cannot be empty and emits nothing
exactly when the trimmed compose buffer is empty; otherwise it emits one
`message` wire payload carrying the confirmed identity as author and the
trimmed buffer as body, with no alert, and resets the compose buffer. -/
theorem C8_send_active (s : AppState) (hu : jsTrim s.username = s.username)
    (hn : s.username ≠ "") (hc : s.socketConnected = true) :
    (jsTrim s.messageInput = "" →
        (sendMessage s).alerted = some "Message cannot be empty."
        ∧ (sendMessage s).emitted = none
        ∧ (sendMessage s).state = s)
    ∧ (jsTrim s.messageInput ≠ "" →
        (sendMessage s).emitted = some { user := s.username, text := jsTrim s.messageInput }
        ∧ (sendMessage s).alerted = none
        ∧ (sendMessage s).state.messageInput = "") := by
  constructor
  · intro h
    have hm : (jsTrim s.messageInput != "") = false := by simp [h]
    unfold sendMessage
    rw [hm]
    simp [h]
  · intro h
    have hm : (jsTrim s.messageInput != "") = true := by simpa using h
    have hun : (jsTrim s.username != "") = true := by
      rw [hu]
      simpa using hn
    unfold sendMessage
    rw [hm, hc, hun, hu]
    simp

/-- Witness for C8 at the active state `sActive` (buffer " hello "):
the emitted payload is exactly author "Alice", body "hello", and the
buffer is reset. -/
theorem C8_send_active_witness :
    jsTrim (AppState.username sActive) = AppState.username sActive
    ∧ AppState.username sActive ≠ ""
    ∧ AppState.socketConnected sActive = true
    ∧ jsTrim (AppState.messageInput sActive) ≠ ""
    ∧ (sendMessage sActive).emitted = some { user := "Alice", text := "hello" }
    ∧ (sendMessage sActive).alerted = none
    ∧ (sendMessage sActive).state.messageInput = "" := by
  have h := (C8_send_active sActive (by decide) (by decide) (by decide)).2 (by decide)
  refine ⟨by decide, by decide, by decide, by decide, ?_, h.2.1, h.2.2⟩
  rw [h.1]
  decide

/-- C9: `sendMessage` never mutates the Timeline, in any state: no
optimistic local append happens; a sent message can only appear through
the `new_message` handler when the server echoes it back. -/
theorem C9_send_frame_timeline (s : AppState) :
    (sendMessage s).state.messages = s.messages := by
  unfold sendMessage
  split
  · rfl
  · split <;> rfl

/-- C10: a successful `sendMessage` (non-empty trimmed buffer, live
socket, non-empty trimmed username — the case that emits) also hides the
emoji picker, a side effect the spec does not state; a send that fails on
an empty trimmed buffer leaves the emoji-picker visibility unchanged. -/
theorem C10_send_emoji_picker (s : AppState) :
    (jsTrim s.messageInput ≠ "" → s.socketConnected = true → jsTrim s.username ≠ "" →
        (sendMessage s).state.showEmojiPicker = false
        ∧ (sendMessage s).emitted.isSome = true)
    ∧ (jsTrim s.messageInput = "" →
        (sendMessage s).state.showEmojiPicker = s.showEmojiPicker) := by
  constructor
  · intro h1 h2 h3
    have hm : (jsTrim s.messageInput != "") = true := by simpa using h1
    have hun : (jsTrim s.username != "") = true := by simpa using h3
    unfold sendMessage
    rw [hm, h2, hun]
    simp
  · intro h
    have hm : (jsTrim s.messageInput != "") = false := by simp [h]
    unfold sendMessage
    rw [hm]
    simp [h]

/-- Witness for C10: at `sActive` (emoji picker open, buffer " hello ")
the successful send hides the picker and emits; at `sActiveEmpty`
(whitespace-only buffer) the failed send leaves the picker open. -/
theorem C10_send_emoji_picker_witness :
    (jsTrim (AppState.messageInput sActive) ≠ ""
      ∧ AppState.socketConnected sActive = true
      ∧ jsTrim (AppState.username sActive) ≠ ""
      ∧ (sendMessage sActive).state.showEmojiPicker = false
      ∧ (sendMessage sActive).emitted.isSome = true)
    ∧ (jsTrim (AppState.messageInput sActiveEmpty) = ""
      ∧ (sendMessage sActiveEmpty).state.showEmojiPicker
          = AppState.showEmojiPicker sActiveEmpty) := by
  have h1 := (C10_send_emoji_picker sActive).1 (by decide) (by decide) (by decide)
  have h2 := (C10_send_emoji_picker sActiveEmpty).2 (by decide)
  exact ⟨⟨by decide, by decide, by decide, h1.1, h1.2⟩, by decide, h2⟩

end Chat
